import Mathlib

/-
Shallow embedding of `src/app/main.py` (a FastAPI service wrapping the external
LightRAG / RAG-Anything libraries).

Modelling choices, matched line by line against the source:

* Environment configuration (lines 22-35) becomes `Config`; variables read with
  `os.getenv(name)` (no default) are `Option String` (`none` = unset), those read
  with a default are plain `String`.  Python truthiness of such a value
  (`if not X`) is `truthy`.

* The external library calls (`lightrag.ainsert`, `lightrag.aquery`,
  `rag.process_file`) and the fallible file write in `upload_file` are oracles
  collected in `Oracles`; an `Except.error e` models a raised exception whose
  `str(e)` is `e`.

* Each handler returns the HTTP outcome (`HResult`: a JSON body or a raised
  `HTTPException status detail`) together with the trace of side effects it
  performed (`List Event`), in order.  `Event.callAquery` / `callAinsert` /
  `callProcessFile` mark the moments the request reaches the external engine
  (and through it the graph / vector stores).

* `startup_event` (lines 109-187) returns whether `rag_instance` was set,
  together with its effect trace; the whole `try` block constructing the stores
  and pipeline (lines 137-186) is the `build` oracle, and reaching it is marked
  by `Event.constructStores`.

* A tiny filesystem semantics (`runEvents`) interprets write/remove events so
  that persistence claims about uploaded files can be stated.
-/

namespace LightRagService

/-- Configuration from environment (lines 22-35 of `main.py`).  Fields read via
`os.getenv` without a default are `Option String`; `none` models an unset
variable. -/
structure Config where
  working_dir : String
  openrouter_api_key : Option String
  neo4j_uri : String
  neo4j_username : String
  neo4j_password : Option String
  postgres_uri : Option String
  deriving DecidableEq, Repr

/-- Python truthiness of an optional string: `None` and `""` are falsy. -/
def truthy : Option String → Bool
  | none => false
  | some s => !(s == "")

/-- Body of `POST /api/insert` (class `InsertRequest`, lines 54-56). -/
structure InsertRequest where
  content : String
  description : Option String
  deriving DecidableEq, Repr

/-- Body of `POST /api/query` after pydantic defaulting (class `QueryRequest`,
lines 59-61): `mode` holds the string pydantic bound to the field. -/
structure QueryRequest where
  query : String
  mode : String
  deriving DecidableEq, Repr

/-- Pydantic parsing of the query body: an omitted `mode` field takes the
declared default `"hybrid"` (line 61). -/
def parseQueryRequest (query : String) (modeField : Option String) : QueryRequest :=
  { query := query, mode := modeField.getD "hybrid" }

/-- Response model of `POST /api/query` (class `QueryResponse`, lines 64-66). -/
structure QueryResponse where
  answer : String
  mode : String
  deriving DecidableEq, Repr

/-- JSON body returned by `insert_content` on success (lines 221-225). -/
structure InsertResponse where
  status : String
  message : String
  content_length : Nat
  deriving DecidableEq, Repr

/-- JSON body returned by `upload_file` on success (lines 276-281). -/
structure UploadResponse where
  status : String
  message : String
  filename : String
  size : Nat
  deriving DecidableEq, Repr

/-- JSON body of `GET /health` (lines 202-207). -/
structure HealthResponse where
  status : String
  rag_initialized : Bool
  neo4j_uri : String
  lightrag_available : Bool
  deriving DecidableEq, Repr

/-- Outcome of a FastAPI handler: either a JSON body, or a raised
`HTTPException(status_code, detail)`. -/
inductive HResult (α : Type) where
  | ok (body : α)
  | httpError (status : Nat) (detail : String)
  deriving DecidableEq, Repr

/-- Observable side effects of the handlers, in execution order. -/
inductive Event where
  | mkdir (path : String)
  | writeFile (path : String) (content : List Nat)
  | removeFile (path : String)
  | callAinsert (content : String)
  | callAquery (query : String) (mode : String)
  | callProcessFile (path : String)
  | constructStores
  | logError (msg : String)
  deriving DecidableEq, Repr

/-- The external LightRAG / RAG-Anything collaborators and the fallible file
write inside `upload_file`; `.error e` models a raised exception with message
`e`. -/
structure Oracles where
  ainsert : String → Except String Unit
  aquery : String → String → Except String String
  process_file : String → Except String Unit
  write_file : String → List Nat → Except String Unit

/-- The detail string of the 503 raised by all three operations when
`rag_instance` is `None` (lines 214, 235, 258). -/
def rag_not_init_detail : String := "RAG system not initialized"

/-- `startup_event` (lines 109-187): creates the working directory, then
validates the three required configuration values and module availability,
returning early (leaving `rag_instance = None`) on the first failure; otherwise
runs the `try` block that constructs stores and pipeline (`build`), catching
any exception.  Returns (`rag_instance` was set, effect trace). -/
def startup_event (cfg : Config) (lightragAvailable : Bool)
    (build : Except String Unit) : Bool × List Event :=
  let evs : List Event := [Event.mkdir cfg.working_dir]
  if !truthy cfg.openrouter_api_key then
    (false, evs ++ [Event.logError "OPENROUTER_API_KEY not set!"])
  else if !truthy cfg.neo4j_password then
    (false, evs ++ [Event.logError "NEO4J_PASSWORD not set!"])
  else if !truthy cfg.postgres_uri then
    (false, evs ++ [Event.logError "POSTGRES_URI not set!"])
  else if !lightragAvailable then
    (false, evs ++ [Event.logError "LightRAG modules not available!"])
  else
    match build with
    | .ok _ => (true, evs ++ [Event.constructStores])
    | .error e =>
        (false, evs ++ [Event.constructStores,
                        Event.logError ("Failed to initialize RAG system: " ++ e)])

/-- `GET /health` (lines 199-207): responds in every state, with no readiness
check. -/
def health_check (cfg : Config) (ragInit : Bool) (lightragAvailable : Bool) :
    HealthResponse :=
  { status := if ragInit then "healthy" else "initializing"
    rag_initialized := ragInit
    neo4j_uri := cfg.neo4j_uri
    lightrag_available := lightragAvailable }

/-- `POST /api/insert` (lines 210-228).  `ragInit` is `rag_instance is not None`;
a falsy instance raises 503 before any work; otherwise `ainsert` is called and
any exception becomes a 500 carrying `str(e)`. -/
def insert_content (ragInit : Bool) (ox : Oracles) (req : InsertRequest) :
    HResult InsertResponse × List Event :=
  if !ragInit then
    (.httpError 503 rag_not_init_detail, [])
  else
    match ox.ainsert req.content with
    | .ok _ =>
        (.ok { status := "success"
               message := "Content indexed successfully"
               content_length := req.content.length },
         [Event.callAinsert req.content])
    | .error e =>
        (.httpError 500 e, [Event.callAinsert req.content])

/-- `POST /api/query` (lines 231-251).  No validation of `request.mode` occurs:
the string is passed straight into `QueryParam(mode=request.mode)` and
`aquery`; any exception becomes a 500 carrying `str(e)`. -/
def query_content (ragInit : Bool) (ox : Oracles) (req : QueryRequest) :
    HResult QueryResponse × List Event :=
  if !ragInit then
    (.httpError 503 rag_not_init_detail, [])
  else
    match ox.aquery req.query req.mode with
    | .ok result =>
        (.ok { answer := result, mode := req.mode },
         [Event.callAquery req.query req.mode])
    | .error e =>
        (.httpError 500 e, [Event.callAquery req.query req.mode])

/-- The uploads directory `Path(WORKING_DIR) / "uploads"` (line 262). -/
def uploads_dir (cfg : Config) : String := cfg.working_dir ++ "/uploads"

/-- The destination path `upload_dir / file.filename` (line 265): exactly the
client-supplied filename under the uploads directory. -/
def upload_path (cfg : Config) (filename : String) : String :=
  uploads_dir cfg ++ "/" ++ filename

/-- `POST /api/upload` (lines 254-284).  After the readiness check, inside the
`try`: create the uploads directory, write the uploaded bytes to
`upload_path`, then call `process_file` on that path.  Exceptions from the
write or from processing become a 500; no cleanup of the written file ever
happens. -/
def upload_file (cfg : Config) (ragInit : Bool) (ox : Oracles)
    (filename : String) (content : List Nat) :
    HResult UploadResponse × List Event :=
  if !ragInit then
    (.httpError 503 rag_not_init_detail, [])
  else
    let dir := uploads_dir cfg
    let path := upload_path cfg filename
    match ox.write_file path content with
    | .error e => (.httpError 500 e, [Event.mkdir dir])
    | .ok _ =>
        match ox.process_file path with
        | .ok _ =>
            (.ok { status := "success"
                   message := "File " ++ filename ++ " processed successfully"
                   filename := filename
                   size := content.length },
             [Event.mkdir dir, Event.writeFile path content,
              Event.callProcessFile path])
        | .error e =>
            (.httpError 500 e,
             [Event.mkdir dir, Event.writeFile path content,
              Event.callProcessFile path])

/-- Process-wide server state: just the `rag_instance` global (line 38),
abstracted to whether it is set. -/
structure ServerState where
  ragInit : Bool
  deriving DecidableEq, Repr

/-- A request to one of the four endpoints the claims mention. -/
inductive Request where
  | insert (req : InsertRequest)
  | query (req : QueryRequest)
  | upload (filename : String) (content : List Nat)
  | health
  deriving DecidableEq, Repr

/-- A response from any of those endpoints. -/
inductive Response where
  | insertR (r : HResult InsertResponse)
  | queryR (r : HResult QueryResponse)
  | uploadR (r : HResult UploadResponse)
  | healthR (r : HealthResponse)
  deriving DecidableEq, Repr

/-- Dispatch one request.  No handler assigns to `rag_instance`, so the state
is returned unchanged. -/
def handle (cfg : Config) (lightragAvailable : Bool) (ox : Oracles)
    (s : ServerState) (r : Request) : ServerState × Response :=
  match r with
  | .insert req => (s, .insertR (insert_content s.ragInit ox req).1)
  | .query req => (s, .queryR (query_content s.ragInit ox req).1)
  | .upload fn c => (s, .uploadR (upload_file cfg s.ragInit ox fn c).1)
  | .health => (s, .healthR (health_check cfg s.ragInit lightragAvailable))

/-- Run a sequence of requests, threading the server state. -/
def runServer (cfg : Config) (lightragAvailable : Bool) (ox : Oracles)
    (s : ServerState) (reqs : List Request) : ServerState :=
  reqs.foldl (fun s r => (handle cfg lightragAvailable ox s r).1) s

/-- Filesystem abstraction: the content stored at each path, if any. -/
def FS : Type := String → Option (List Nat)

/-- Interpret one event on the filesystem.  `open(path, "wb")` followed by a
full write replaces the content at `path`. -/
def applyEvent (fs : FS) : Event → FS
  | .writeFile p c => fun q => if q = p then some c else fs q
  | .removeFile p => fun q => if q = p then none else fs q
  | _ => fs

/-- Interpret an effect trace on the filesystem, in order. -/
def runEvents (fs : FS) (evs : List Event) : FS :=
  evs.foldl applyEvent fs

/-- Oracles whose external calls all succeed (stub engine). -/
def okOracles : Oracles :=
  { ainsert := fun _ => .ok ()
    aquery := fun _ _ => .ok "stub answer"
    process_file := fun _ => .ok ()
    write_file := fun _ _ => .ok () }

/-- Oracles whose external engine calls all raise `"boom"`; the plain file
write still succeeds. -/
def failOracles : Oracles :=
  { ainsert := fun _ => .error "boom"
    aquery := fun _ _ => .error "boom"
    process_file := fun _ => .error "boom"
    write_file := fun _ _ => .ok () }

/-- A configuration with the API key unset and the other required values
present. -/
def noKeyConfig : Config :=
  { working_dir := "./data/rag_storage"
    openrouter_api_key := none
    neo4j_uri := "bolt://neo4j:7687"
    neo4j_username := "neo4j"
    neo4j_password := some "pw"
    postgres_uri := some "postgres://u" }

/-- One of the three required configuration values is empty or absent
(`not OPENROUTER_API_KEY`, `not NEO4J_PASSWORD`, `not POSTGRES_URI`). -/
def missingConfig (cfg : Config) : Prop :=
  truthy cfg.openrouter_api_key = false ∨ truthy cfg.neo4j_password = false ∨
    truthy cfg.postgres_uri = false

/-- Handling any request leaves the server state unchanged: no handler assigns
to `rag_instance`. -/
theorem handle_state_eq (cfg : Config) (la : Bool) (ox : Oracles)
    (s : ServerState) (r : Request) : (handle cfg la ox s r).1 = s := by
  cases r <;> rfl

/-- Running any request sequence leaves the server state unchanged. -/
theorem runServer_eq (cfg : Config) (la : Bool) (ox : Oracles)
    (s : ServerState) (reqs : List Request) : runServer cfg la ox s reqs = s := by
  induction reqs generalizing s with
  | nil => rfl
  | cons r rs ih =>
      show runServer cfg la ox (handle cfg la ox s r).1 rs = s
      rw [handle_state_eq, ih]

/-- When a required configuration value is missing, startup leaves the instance
unset, never reaches the store construction, but has already created the
working directory. -/
theorem startup_missing_not_ready (cfg : Config) (la : Bool)
    (build : Except String Unit) (h : missingConfig cfg) :
    (startup_event cfg la build).1 = false ∧
    Event.constructStores ∉ (startup_event cfg la build).2 ∧
    Event.mkdir cfg.working_dir ∈ (startup_event cfg la build).2 := by
  unfold missingConfig at h
  unfold startup_event
  rcases h with h | h | h <;>
    cases h1 : truthy cfg.openrouter_api_key <;>
      cases h2 : truthy cfg.neo4j_password <;>
        cases h3 : truthy cfg.postgres_uri <;> simp_all

/-- The working-directory creation is the first effect of startup, in every
branch. -/
theorem startup_trace_head (cfg : Config) (la : Bool)
    (build : Except String Unit) :
    ((startup_event cfg la build).2).head? = some (Event.mkdir cfg.working_dir) := by
  unfold startup_event
  cases h1 : truthy cfg.openrouter_api_key <;>
    cases h2 : truthy cfg.neo4j_password <;>
      cases h3 : truthy cfg.postgres_uri <;>
        cases la <;> cases build <;> simp

/-- On a ready instance, the upload trace when the file write succeeds:
directory creation, then the complete write, then processing. -/
theorem upload_trace_eq (cfg : Config) (ox : Oracles) (fn : String)
    (c : List Nat) (hw : ox.write_file (upload_path cfg fn) c = .ok ()) :
    (upload_file cfg true ox fn c).2 =
      [Event.mkdir (uploads_dir cfg),
       Event.writeFile (upload_path cfg fn) c,
       Event.callProcessFile (upload_path cfg fn)] := by
  cases hp : ox.process_file (upload_path cfg fn) <;>
    simp [upload_file, hw, hp]

/-- Claim C1 counterexample: with a ready instance and a mode string outside
{naive, local, global, hybrid}, `query_content` does not reject the request:
it still calls the external engine (`aquery`) with the invalid mode, and even
returns a 200 echoing that mode. -/
theorem C1_counterexample :
    "teleport" ∉ ["naive", "local", "global", "hybrid"] ∧
    (query_content true okOracles { query := "q", mode := "teleport" }).2 =
      [Event.callAquery "q" "teleport"] ∧
    (query_content true okOracles { query := "q", mode := "teleport" }).1 =
      .ok { answer := "stub answer", mode := "teleport" } :=
  ⟨by decide, rfl, rfl⟩

/-- Claim C1, amended: `query_content` performs no mode validation at all.  On
a ready instance, every request — whichever its mode string, one of the four
valid ones or not — results in exactly one `aquery` call carrying that mode
unchanged; dispatch over the four modes (and any rejection of other strings)
is delegated entirely to the external engine. -/
theorem C1_mode_forwarded_unvalidated (ox : Oracles) (req : QueryRequest) :
    (query_content true ox req).2 = [Event.callAquery req.query req.mode] := by
  cases h : ox.aquery req.query req.mode <;> simp [query_content, h]

/-- Claim C2: when the instance is not initialized, insert, query, and upload
all return the identical 503 with detail "RAG system not initialized", and
perform no effect at all (no ingestion, no retrieval, no file write). -/
theorem C2_not_ready_uniform_503 (ox : Oracles) (cfg : Config)
    (ireq : InsertRequest) (qreq : QueryRequest) (fn : String) (c : List Nat) :
    insert_content false ox ireq = (.httpError 503 rag_not_init_detail, []) ∧
    query_content false ox qreq = (.httpError 503 rag_not_init_detail, []) ∧
    upload_file cfg false ox fn c = (.httpError 503 rag_not_init_detail, []) :=
  ⟨rfl, rfl, rfl⟩

/-- Claim C3: if any one required configuration value is missing, startup ends
with the instance unset and without constructing the stores; the state stays
uninitialized across any sequence of subsequent requests (no retry), and after
any such sequence insert, query, and upload each return the 503 not-ready
error. -/
theorem C3_missing_config_permanently_down (cfg : Config) (la : Bool)
    (build : Except String Unit) (h : missingConfig cfg) :
    (startup_event cfg la build).1 = false ∧
    Event.constructStores ∉ (startup_event cfg la build).2 ∧
    ∀ (ox : Oracles) (reqs : List Request) (ireq : InsertRequest)
      (qreq : QueryRequest) (fn : String) (c : List Nat),
      (runServer cfg la ox { ragInit := (startup_event cfg la build).1 } reqs).ragInit
          = false ∧
      (insert_content
          (runServer cfg la ox { ragInit := (startup_event cfg la build).1 } reqs).ragInit
          ox ireq).1 = .httpError 503 rag_not_init_detail ∧
      (query_content
          (runServer cfg la ox { ragInit := (startup_event cfg la build).1 } reqs).ragInit
          ox qreq).1 = .httpError 503 rag_not_init_detail ∧
      (upload_file cfg
          (runServer cfg la ox { ragInit := (startup_event cfg la build).1 } reqs).ragInit
          ox fn c).1 = .httpError 503 rag_not_init_detail := by
  obtain ⟨hinit, hmem, -⟩ := startup_missing_not_ready cfg la build h
  refine ⟨hinit, hmem, fun ox reqs ireq qreq fn c => ?_⟩
  rw [hinit, runServer_eq]
  exact ⟨rfl, rfl, rfl, rfl⟩

/-- Claim C3 witness: with the API key unset (other values present), startup
on a concrete configuration leaves the instance unset and, after a request has
been served, insert still returns the 503. -/
theorem C3_witness :
    missingConfig noKeyConfig ∧
    (startup_event noKeyConfig true (.ok ())).1 = false ∧
    (insert_content
        (runServer noKeyConfig true okOracles
          { ragInit := (startup_event noKeyConfig true (.ok ())).1 }
          [Request.health]).ragInit
        okOracles { content := "x", description := none }).1 =
      .httpError 503 rag_not_init_detail := by
  have h : missingConfig noKeyConfig := Or.inl rfl
  have t := C3_missing_config_permanently_down noKeyConfig true (.ok ()) h
  exact ⟨h, t.1,
    (t.2.2 okOracles [Request.health] { content := "x", description := none }
      { query := "q", mode := "hybrid" } "f" []).2.1⟩

/-- Claim C4 counterexample: inserting "Paris is the capital of France." on a
ready system returns status "success" with `content_length` 31, not 30 — the
string has 31 characters. -/
theorem C4_counterexample :
    (insert_content true okOracles
        { content := "Paris is the capital of France.", description := none }).1 =
      .ok { status := "success", message := "Content indexed successfully",
            content_length := 31 } ∧
    (31 : Nat) ≠ 30 :=
  ⟨rfl, by decide⟩

/-- Claim C4, amended: on a ready system whose ingestion call succeeds, insert
returns status "success" with `content_length` equal to the length of the
submitted content; for "Paris is the capital of France." that length is 31. -/
theorem C4_insert_success_receipt (ox : Oracles) (req : InsertRequest)
    (h : ox.ainsert req.content = .ok ()) :
    (insert_content true ox req).1 =
      .ok { status := "success", message := "Content indexed successfully",
            content_length := req.content.length } ∧
    ("Paris is the capital of France." : String).length = 31 :=
  ⟨by simp [insert_content, h], rfl⟩

/-- Claim C4 witness: the amended receipt at the concrete content. -/
theorem C4_witness :
    okOracles.ainsert "The Seine crosses Paris." = .ok () ∧
    (insert_content true okOracles
        { content := "The Seine crosses Paris.", description := none }).1 =
      .ok { status := "success", message := "Content indexed successfully",
            content_length := 24 } :=
  ⟨rfl, (C4_insert_success_receipt okOracles
    { content := "The Seine crosses Paris.", description := none } rfl).1⟩

/-- Claim C5: on a ready system, every failure raised inside the three
operations — the ingestion call, the retrieval call, the file write, or file
processing — is caught at the handler boundary and converted into a 500
carrying the exception's message. -/
theorem C5_failures_become_500 (ox : Oracles) :
    (∀ (req : InsertRequest) (e : String), ox.ainsert req.content = .error e →
      (insert_content true ox req).1 = .httpError 500 e) ∧
    (∀ (req : QueryRequest) (e : String), ox.aquery req.query req.mode = .error e →
      (query_content true ox req).1 = .httpError 500 e) ∧
    (∀ (cfg : Config) (fn : String) (c : List Nat) (e : String),
      ox.write_file (upload_path cfg fn) c = .error e →
      (upload_file cfg true ox fn c).1 = .httpError 500 e) ∧
    (∀ (cfg : Config) (fn : String) (c : List Nat) (e : String),
      ox.write_file (upload_path cfg fn) c = .ok () →
      ox.process_file (upload_path cfg fn) = .error e →
      (upload_file cfg true ox fn c).1 = .httpError 500 e) := by
  refine ⟨fun req e h => ?_, fun req e h => ?_,
    fun cfg fn c e h => ?_, fun cfg fn c e h1 h2 => ?_⟩ <;>
    simp [insert_content, query_content, upload_file, *]

/-- Claim C5 witness: with an engine whose calls raise "boom", the concrete
insert, query, and upload requests each return a 500 carrying "boom". -/
theorem C5_witness :
    failOracles.ainsert "x" = .error "boom" ∧
    (insert_content true failOracles { content := "x", description := none }).1 =
      .httpError 500 "boom" ∧
    (query_content true failOracles { query := "y", mode := "hybrid" }).1 =
      .httpError 500 "boom" ∧
    (upload_file noKeyConfig true failOracles "a.txt" [0]).1 =
      .httpError 500 "boom" := by
  have h := C5_failures_become_500 failOracles
  exact ⟨rfl, h.1 { content := "x", description := none } "boom" rfl,
    h.2.1 { query := "y", mode := "hybrid" } "boom" rfl,
    h.2.2.2 noKeyConfig "a.txt" [0] "boom" rfl rfl⟩

/-- Claim C6: the health endpoint responds in every state, with status
"healthy" exactly when the instance is initialized and "initializing"
otherwise, `rag_initialized` the corresponding boolean, plus the graph URI and
the module-availability flag (fields `neo4j_uri` and `lightrag_available` in
the code, the spec's `graph_uri` and `providers_available`). -/
theorem C6_health_shape (cfg : Config) (ragInit lightragAvailable : Bool) :
    ((health_check cfg ragInit lightragAvailable).status = "healthy" ↔
      ragInit = true) ∧
    ((health_check cfg ragInit lightragAvailable).status = "initializing" ↔
      ragInit = false) ∧
    (health_check cfg ragInit lightragAvailable).rag_initialized = ragInit ∧
    (health_check cfg ragInit lightragAvailable).neo4j_uri = cfg.neo4j_uri ∧
    (health_check cfg ragInit lightragAvailable).lightrag_available =
      lightragAvailable := by
  cases ragInit <;> refine ⟨?_, ?_, rfl, rfl, rfl⟩ <;> simp [health_check]

/-- Claim C7: on a ready system, when the file write succeeds the upload trace
is exactly directory creation, then the complete write of the uploaded bytes
under the working directory, then processing of that same path — the write
precedes parsing; no branch ever removes a file, and when processing fails the
response is the 500 yet the written file is still present in the resulting
filesystem. -/
theorem C7_upload_write_before_parse (cfg : Config) (ox : Oracles)
    (fn : String) (c : List Nat)
    (hw : ox.write_file (upload_path cfg fn) c = .ok ()) :
    (upload_file cfg true ox fn c).2 =
      [Event.mkdir (uploads_dir cfg),
       Event.writeFile (upload_path cfg fn) c,
       Event.callProcessFile (upload_path cfg fn)] ∧
    (∀ p, Event.removeFile p ∉ (upload_file cfg true ox fn c).2) ∧
    (∀ e, ox.process_file (upload_path cfg fn) = .error e →
      (upload_file cfg true ox fn c).1 = .httpError 500 e ∧
      ∀ fs : FS,
        runEvents fs (upload_file cfg true ox fn c).2 (upload_path cfg fn) =
          some c) := by
  have hevs := upload_trace_eq cfg ox fn c hw
  refine ⟨hevs, ?_, fun e he => ⟨?_, fun fs => ?_⟩⟩
  · intro p; rw [hevs]; simp
  · simp [upload_file, hw, he]
  · rw [hevs]; simp [runEvents, applyEvent]

/-- Claim C7 witness: a concrete upload whose processing raises "boom" keeps
the written bytes on disk and returns the 500. -/
theorem C7_witness :
    failOracles.write_file (upload_path noKeyConfig "doc.pdf") [7, 8] = .ok () ∧
    failOracles.process_file (upload_path noKeyConfig "doc.pdf") = .error "boom" ∧
    (upload_file noKeyConfig true failOracles "doc.pdf" [7, 8]).1 =
      .httpError 500 "boom" ∧
    runEvents (fun _ => none)
        (upload_file noKeyConfig true failOracles "doc.pdf" [7, 8]).2
        (upload_path noKeyConfig "doc.pdf") = some [7, 8] := by
  have h := C7_upload_write_before_parse noKeyConfig failOracles "doc.pdf" [7, 8] rfl
  exact ⟨rfl, rfl, (h.2.2 "boom" rfl).1, (h.2.2 "boom" rfl).2 (fun _ => none)⟩

/-- Claim C8: a query body that omits the mode field parses with mode
"hybrid", and every successful query returns both the answer and a mode field
equal to the mode used for the engine call. -/
theorem C8_default_hybrid_and_echo :
    (∀ q, (parseQueryRequest q none).mode = "hybrid") ∧
    (∀ (ox : Oracles) (req : QueryRequest) (ans : String),
      ox.aquery req.query req.mode = .ok ans →
      (query_content true ox req).1 = .ok { answer := ans, mode := req.mode } ∧
      (query_content true ox req).2 = [Event.callAquery req.query req.mode]) := by
  refine ⟨fun q => rfl, fun ox req ans h => ⟨?_, ?_⟩⟩ <;>
    simp [query_content, h]

/-- Claim C8 witness: the default at a concrete omitted field, and a concrete
successful query echoing its mode. -/
theorem C8_witness :
    (parseQueryRequest "What is the capital of France?" none).mode = "hybrid" ∧
    okOracles.aquery "q2" "naive" = .ok "stub answer" ∧
    (query_content true okOracles { query := "q2", mode := "naive" }).1 =
      .ok { answer := "stub answer", mode := "naive" } := by
  have h := C8_default_hybrid_and_echo
  exact ⟨h.1 "What is the capital of France?", rfl,
    (h.2 okOracles { query := "q2", mode := "naive" } "stub answer" rfl).1⟩

/-- Claim C9: the working directory is created as the very first startup
effect, before any configuration validation; hence when a required value is
missing the instance stays unset and yet the creation of the working directory
is in the trace. -/
theorem C9_workdir_created_before_validation (cfg : Config) (la : Bool)
    (build : Except String Unit) :
    ((startup_event cfg la build).2).head? = some (Event.mkdir cfg.working_dir) ∧
    (missingConfig cfg →
      (startup_event cfg la build).1 = false ∧
      Event.mkdir cfg.working_dir ∈ (startup_event cfg la build).2) :=
  ⟨startup_trace_head cfg la build, fun h =>
    ⟨(startup_missing_not_ready cfg la build h).1,
     (startup_missing_not_ready cfg la build h).2.2⟩⟩

/-- Claim C9 witness: with the API key unset, the concrete startup trace
begins with the working-directory creation although the instance stays
unset. -/
theorem C9_witness :
    missingConfig noKeyConfig ∧
    ((startup_event noKeyConfig true (.ok ())).2).head? =
      some (Event.mkdir "./data/rag_storage") ∧
    (startup_event noKeyConfig true (.ok ())).1 = false := by
  have hm : missingConfig noKeyConfig := Or.inl rfl
  have h := C9_workdir_created_before_validation noKeyConfig true (.ok ())
  exact ⟨hm, h.1, (h.2 hm).1⟩

/-- Claim C10: uploads are saved at the uploads subdirectory of the working
directory under exactly the client-supplied filename, so two uploads with the
same filename target the same path and, running the second trace after the
first, the second content overwrites the first before its processing call. -/
theorem C10_same_filename_overwrites (cfg : Config) (fn : String)
    (c1 c2 : List Nat) (ox1 ox2 : Oracles) (fs : FS)
    (h1 : ox1.write_file (upload_path cfg fn) c1 = .ok ())
    (h2 : ox2.write_file (upload_path cfg fn) c2 = .ok ()) :
    upload_path cfg fn = cfg.working_dir ++ "/uploads" ++ "/" ++ fn ∧
    (upload_file cfg true ox2 fn c2).2 =
      [Event.mkdir (uploads_dir cfg),
       Event.writeFile (upload_path cfg fn) c2,
       Event.callProcessFile (upload_path cfg fn)] ∧
    runEvents (runEvents fs (upload_file cfg true ox1 fn c1).2)
        (upload_file cfg true ox2 fn c2).2 (upload_path cfg fn) = some c2 := by
  have e1 := upload_trace_eq cfg ox1 fn c1 h1
  have e2 := upload_trace_eq cfg ox2 fn c2 h2
  refine ⟨rfl, e2, ?_⟩
  rw [e1, e2]
  simp [runEvents, applyEvent]

/-- Claim C10 witness: two concrete uploads of different bytes under the same
filename; after both traces the path holds the second upload's bytes. -/
theorem C10_witness :
    okOracles.write_file (upload_path noKeyConfig "r.txt") [1] = .ok () ∧
    upload_path noKeyConfig "r.txt" = "./data/rag_storage/uploads/r.txt" ∧
    runEvents (runEvents (fun _ => none)
        (upload_file noKeyConfig true okOracles "r.txt" [1]).2)
        (upload_file noKeyConfig true okOracles "r.txt" [2]).2
        (upload_path noKeyConfig "r.txt") = some [2] := by
  have h := C10_same_filename_overwrites noKeyConfig "r.txt" [1] [2]
    okOracles okOracles (fun _ => none) rfl rfl
  exact ⟨rfl, rfl, h.2.2⟩

end LightRagService
